import Mathlib

/-!
Shallow embedding of the invoice-normalization pipeline of
`backend/app/services/processing.py`, `backend/app/core/openai_client.py`
and `backend/app/core/config.py`.

Cell values are modelled by `Val` (Python `None`/`NaN`, strings, and finite
numbers as rationals; pandas floats are modelled exactly as rationals, so
non-finite floats are outside the model).  External services (the OpenAI
unit-of-measure classifier and the column classifier) are modelled by
oracles passed in explicitly; the module-level `lru_cache` is modelled by an
explicit association list threaded through the run (its 1024-entry bound is
never reached in any statement below, so eviction is not modelled).
-/

inductive Val where
  | none : Val
  | str : String → Val
  | num : ℚ → Val
deriving DecidableEq

/-- Python `str()` as pandas `astype(str)` applies it to object cells:
`None`/`NaN` render as `"None"`/`"nan"` (both collapsed onto the `Val.none`
constructor, rendered `"None"`); strings are unchanged.  The exact pandas
rendering of numeric cells is not load-bearing for any statement below and
is approximated by `toString`. -/
def pyStr : Val → String
  | Val.none => "None"
  | Val.str s => s
  | Val.num q => toString q

/-- `pd.isna` from `calculate_customs_quantity`: true on `None`/`NaN` cells. -/
def pdIsNA : Val → Bool
  | Val.none => true
  | _ => false

/-- Whitespace trim on a character list (both ends). -/
def trimChars (cs : List Char) : List Char :=
  ((cs.dropWhile Char.isWhitespace).reverse.dropWhile Char.isWhitespace).reverse

/-- Python `str.strip()` (whitespace), also pandas `.str.strip()`. -/
def pyStrip (s : String) : String := String.mk (trimChars s.toList)

/-- Python `str.upper()` (ASCII fragment). -/
def pyUpper (s : String) : String := String.mk (s.toList.map Char.toUpper)

/-- Numeric value of a run of decimal digit characters. -/
def digitsToNat (cs : List Char) : Nat :=
  cs.foldl (fun a c => a * 10 + (c.toNat - 48)) 0

/-- Optional exponent suffix of a Python float literal (`e`/`E`, optional
sign, digits); any other trailing text makes the literal invalid. -/
def parseExpSuffix (base : ℚ) : List Char → Option ℚ
  | [] => some base
  | c :: rest =>
    if c = 'e' ∨ c = 'E' then
      let sgn : ℤ × List Char :=
        match rest with
        | '+' :: t => (1, t)
        | '-' :: t => (-1, t)
        | t => (1, t)
      let ds := sgn.2.takeWhile Char.isDigit
      let rest3 := sgn.2.dropWhile Char.isDigit
      if ds.isEmpty then Option.none
      else if rest3.isEmpty then
        some (base * (10 : ℚ) ^ (sgn.1 * (digitsToNat ds : ℤ)))
      else Option.none
    else Option.none

/-- Python `float(s)` on a string, for finite decimal literals: optional
surrounding whitespace and sign, digits with optional fraction and exponent.
(`inf`/`nan` literals and digit-group underscores are outside the model.) -/
def pyFloatParse (s : String) : Option ℚ :=
  let cs := trimChars s.toList
  let sgn : ℚ × List Char :=
    match cs with
    | '+' :: t => (1, t)
    | '-' :: t => (-1, t)
    | t => (1, t)
  let ip := sgn.2.takeWhile Char.isDigit
  let rest := sgn.2.dropWhile Char.isDigit
  match rest with
  | [] => if ip.isEmpty then Option.none else some (sgn.1 * (digitsToNat ip : ℚ))
  | '.' :: rest2 =>
    let fp := rest2.takeWhile Char.isDigit
    let rest3 := rest2.dropWhile Char.isDigit
    if ip.isEmpty && fp.isEmpty then Option.none
    else
      parseExpSuffix
        (sgn.1 * ((digitsToNat ip : ℚ) + (digitsToNat fp : ℚ) / (10 : ℚ) ^ fp.length))
        rest3
  | _ =>
    if ip.isEmpty then Option.none
    else parseExpSuffix (sgn.1 * (digitsToNat ip : ℚ)) rest

/-- Python `float(x)` applied to a cell: `float(None)` raises (`Option.none`),
numbers pass through, strings are parsed as float literals. -/
def pyFloatOf : Val → Option ℚ
  | Val.none => Option.none
  | Val.num q => some q
  | Val.str s => pyFloatParse s

/-- Association-list lookup, first matching key wins (Python `dict` lookup /
pandas `Series.map` over a dict with unique keys). -/
def alookup {β : Type} (k : String) : List (String × β) → Option β
  | [] => Option.none
  | p :: t => if p.1 = k then some p.2 else alookup k t

/-- The `unit_factors` dict of `calculate_customs_quantity`. -/
def unit_factors : List (String × ℚ) :=
  [("DOZ", 12), ("NUM", 1), ("KG", 1), ("LBS", 1)]

/-- `unit_factors.get(unit_of_measure, 1)`. -/
def factor_for (u : String) : ℚ := (alookup u unit_factors).getD 1

/-- `calculate_customs_quantity` from `processing.py`: `None`/`NaN` and
unparseable quantities yield `0`; otherwise the quantity is divided by the
unit factor.  (The factor is never `0`, so the `ZeroDivisionError` branch
returning `0.0` is unreachable; `ℚ` division is total anyway.) -/
def calculate_customs_quantity (v : Val) (u : String) : ℚ :=
  if pdIsNA v then 0
  else
    match pyFloatOf v with
    | Option.none => 0
    | some q => q / factor_for u

/-- Python `str.isalpha` (ASCII fragment): nonempty and all letters. -/
def pyIsAlpha (s : String) : Bool := !s.toList.isEmpty && s.toList.all Char.isAlpha

/-- The response post-processing of `get_unit_of_measure`: strip, uppercase,
then default to `"NUM"` exactly when the result is longer than 5 characters
or not purely alphabetic. -/
def validate_unit (raw : String) : String :=
  let unit := pyUpper (pyStrip raw)
  if 5 < unit.toList.length || !(pyIsAlpha unit) then "NUM" else unit

/-- `get_unit_of_measure` under its tenacity policy `stop_after_attempt(3)`:
the oracle gives each attempt's outcome (`some` response, `Option.none` for a
raised exception); the first response wins, and after three raised attempts
the `RetryError` propagates (`Except.error`). -/
def get_unit_of_measure (att : Nat → Option String) : Except Unit String :=
  match att 0 with
  | some r => Except.ok (validate_unit r)
  | Option.none =>
    match att 1 with
    | some r => Except.ok (validate_unit r)
    | Option.none =>
      match att 2 with
      | some r => Except.ok (validate_unit r)
      | Option.none => Except.error ()

/-- The sleep tenacity inserts after failed attempt `n` under
`wait_exponential(multiplier=1, min=2, max=10)`. -/
def wait_exponential_2_10 (attempt : Nat) : Nat := min 10 (max 2 (2 ^ attempt))

abbrev Cache := List (String × String)

/-- `get_unit_of_measure_cached`: the `lru_cache` keyed by the raw code
string.  A hit returns the cached value; a miss calls the retry-protected
lookup, and `lru_cache` stores the result exactly when the call returns
(a raised call caches nothing). -/
def get_unit_of_measure_cached (oracle : String → Nat → Option String)
    (cache : Cache) (code : String) : Except Unit String × Cache :=
  match alookup code cache with
  | some u => (Except.ok u, cache)
  | Option.none =>
    match get_unit_of_measure (oracle code) with
    | Except.ok u => (Except.ok u, (code, u) :: cache)
    | Except.error e => (Except.error e, cache)

/-- The per-run resolution loop of `process_invoice`: one
`get_unit_of_measure_cached` task per listed code, results zipped back onto
the codes; the third component records the codes whose resolution missed the
cache (and so performed an external, retry-protected API call).  The thread
pool runs these tasks independently and `asyncio.gather` propagates the
first raised `RetryError`, aborting the run; sequential threading of the
cache is equivalent here because the codes handed in are distinct. -/
def resolve_codes (oracle : String → Nat → Option String) :
    List String → Cache → Except Unit (List (String × String)) × Cache × List String
  | [], cache => (Except.ok [], cache, [])
  | c :: cs, cache =>
    let missed := (alookup c cache).isNone
    match get_unit_of_measure_cached oracle cache c with
    | (Except.ok u, cache1) =>
      let r := resolve_codes oracle cs cache1
      (Except.map (fun m => (c, u) :: m) r.1, r.2.1,
        (if missed then [c] else []) ++ r.2.2)
    | (Except.error e, cache1) => (Except.error e, cache1, if missed then [c] else [])

/-- pandas `Series.unique`: first occurrences, in order. -/
def uniqueFirst : List String → List String
  | [] => []
  | a :: l => a :: (uniqueFirst l).filter (fun b => b != a)

/-- `standardized_df['HS Code'].astype(str).unique().tolist()`. -/
def hs_codes_of (col : List Val) : List String := uniqueFirst (col.map pyStr)

/-- The header-row search of `process_invoice`: iterate the raw (header-less)
rows in order and return the index of the first row with an `'EAN Code'`
cell; `Option.none` models the raised `ValueError` when no row matches. -/
def locate_header : List (List Val) → Option Nat
  | [] => Option.none
  | row :: rest =>
    if Val.str "EAN Code" ∈ row then some 0
    else (locate_header rest).map (fun i => i + 1)

/-- The hard-coded `column_mappings` dict of `process_invoice`
(source column → standardized column), in insertion order. -/
def column_mappings : List (String × String) :=
  [("Style", "Product Code"),
   ("Description", "Description"),
   ("HS code", "HS Code"),
   ("Export Invoice #", "Export Invoice #"),
   ("Quantity", "Invoice Quantity"),
   ("Total Amount", "Total Amount")]

/-- The `required_columns` list of `process_invoice`. -/
def required_columns : List String :=
  ["Export Invoice #", "Product Code", "Description", "Invoice Quantity",
   "Total Amount", "HS Code"]

/-- The `output_columns` list of `process_invoice` (fixed output order). -/
def output_columns : List String :=
  ["Export Invoice #", "Product Code", "Description", "Invoice Quantity",
   "Total Amount", "Customs Unit of Measure", "Customs Quantity", "HS Code"]

/-- The columns of `standardized_df` after the mapping loop: every target of
`column_mappings` is created (present sources copy data, absent sources are
assigned `None`). -/
def std_targets : List String := column_mappings.map Prod.snd

/-- `[col for col in required_columns if col not in standardized_df.columns]`. -/
def missing_required : List String :=
  required_columns.filter (fun c => !(std_targets.contains c))

/-- Index of a named column among the (stripped) headers, first match. -/
def findIdx' (name : String) : List String → Option Nat
  | [] => Option.none
  | h :: t => if h = name then some 0 else (findIdx' name t).map (fun i => i + 1)

/-- `df[name]` when `name` is among the headers: the cell of each row at the
column's position. -/
def getColumn (headers : List String) (rows : List (List Val)) (name : String) :
    Option (List Val) :=
  (findIdx' name headers).map (fun i => rows.map (fun r => r.getD i Val.none))

/-- Whether at least one source column of `column_mappings` is present; when
none is, `standardized_df` keeps its empty index and has zero rows. -/
def any_source_present (headers : List String) : Bool :=
  column_mappings.any (fun p => headers.contains p.1)

/-- Row count of `standardized_df`: the input row count once any source
column has been copied in (pandas re-indexes the empty frame on the first
series assignment), zero otherwise. -/
def std_nrows (headers : List String) (rows : List (List Val)) : Nat :=
  if any_source_present headers then rows.length else 0

/-- One standardized column: source data when the source column exists,
otherwise the all-null column produced by `standardized_df[target] = None`. -/
def std_column (headers : List String) (rows : List (List Val)) (n : Nat)
    (src : String) : List Val :=
  match getColumn headers rows src with
  | some col => col
  | Option.none => List.replicate n Val.none

/-- `standardized_df` after the mapping loop, as target-keyed columns in
mapping order. -/
def standardized_columns (headers : List String) (rows : List (List Val)) :
    List (String × List Val) :=
  column_mappings.map
    (fun p => (p.2, std_column headers rows (std_nrows headers rows) p.1))

/-- One output row in `output_columns` order: the six mapped values, the
unit mapped from the row's stringified HS code, and the derived customs
quantity. -/
def out_row (stdCols : List (String × List Val)) (units : List (String × String))
    (i : Nat) : List (String × Val) :=
  let v : String → Val := fun tgt => ((alookup tgt stdCols).getD []).getD i Val.none
  let unit : String := (alookup (pyStr (v "HS Code")) units).getD ""
  [("Export Invoice #", v "Export Invoice #"),
   ("Product Code", v "Product Code"),
   ("Description", v "Description"),
   ("Invoice Quantity", v "Invoice Quantity"),
   ("Total Amount", v "Total Amount"),
   ("Customs Unit of Measure", Val.str unit),
   ("Customs Quantity", Val.num (calculate_customs_quantity (v "Invoice Quantity") unit)),
   ("HS Code", v "HS Code")]

inductive PipeError where
  | headerNotFound
  | noDataExtracted
  | missingRequiredColumns (missing : List String)
  | unitLookupFailed
deriving DecidableEq

/-- The core of `process_invoice` after the header row has been located and
the table re-read with it (download/upload are outside the core): strip the
headers, build `standardized_df`, raise when it is empty, check
`required_columns`, resolve units over the deduplicated stringified HS
codes, and assemble the output rows; a `RetryError` escaping
`asyncio.gather` aborts the run. -/
def processTable (oracle : String → Nat → Option String) (cache : Cache)
    (headers0 : List String) (rows : List (List Val)) :
    Except PipeError (List (List (String × Val))) × Cache :=
  let headers := headers0.map pyStrip
  let stdCols := standardized_columns headers rows
  let n := std_nrows headers rows
  if n = 0 then (Except.error PipeError.noDataExtracted, cache)
  else if missing_required = [] then
    let hsCol := (alookup "HS Code" stdCols).getD []
    let codes := hs_codes_of hsCol
    match resolve_codes oracle codes cache with
    | (Except.ok pairs, cache1, _) =>
      (Except.ok ((List.range n).map (out_row stdCols pairs)), cache1)
    | (Except.error _, cache1, _) => (Except.error PipeError.unitLookupFailed, cache1)
  else (Except.error (PipeError.missingRequiredColumns missing_required), cache)

/-- Whether a pipeline outcome is the missing-required-columns failure. -/
def is_missing_columns_error :
    Except PipeError (List (List (String × Val))) → Bool
  | Except.error (PipeError.missingRequiredColumns _) => true
  | _ => false

/-- Outcome of the column-classifier call in `get_column_mappings`, abstracted
to the three branches the code distinguishes: the API call raised; the call
returned but `json.loads` raised `JSONDecodeError`; the call returned a
parsed JSON object. -/
inductive ClassifierResp where
  | failure
  | unparseable
  | parsed (m : List (String × String))

/-- `Settings.STANDARD_COLUMNS` from `config.py`, in insertion order. -/
def STANDARD_COLUMNS : List (String × List String) :=
  [("Export Invoice #",
    ["Export Invoice #", "Export Document", "Export Invoice Number",
     "Invoice Number", "Invoice #"]),
   ("Product Code",
    ["Style", "Item", "Product Style", "Style/Item/Style/Product Style",
     "Product Code", "Style Code"]),
   ("Description",
    ["Description", "Item Description", "Product Description", "desc",
     "product_desc", "item_description"]),
   ("Invoice Quantity",
    ["Quantity", "QTY", "Invoice Qty", "Qty", "quantity", "Invoice Quantity"]),
   ("Total Amount",
    ["Total Amount", "Amount US$", "Amount", "Total", "total", "total_price",
     "amount", "Price"]),
   ("HS Code",
    ["HS Code", "Customs Nomenclature", "Tariff Code", "HTS", "Harmonized Code"])]

/-- The `JSONDecodeError` fallback of `get_column_mappings`: for each source
header in order, the first standard column whose variant list contains it
exactly (case-sensitive `in`); unmatched headers are skipped. -/
def fallback_mappings (headers : List String)
    (standard_columns : List (String × List String)) : List (String × String) :=
  headers.filterMap (fun col =>
    (standard_columns.find? (fun q => q.2.contains col)).map (fun q => (col, q.1)))

/-- `get_column_mappings`: a parsed classifier response is returned as-is
(unvalidated); an unparseable one triggers the synonym fallback; a raised
API call is re-raised. -/
def get_column_mappings (resp : ClassifierResp) (headers : List String)
    (standard_columns : List (String × List String)) :
    Except Unit (List (String × String)) :=
  match resp with
  | ClassifierResp.parsed m => Except.ok m
  | ClassifierResp.unparseable => Except.ok (fallback_mappings headers standard_columns)
  | ClassifierResp.failure => Except.error ()

/-- The unit-classifier oracle of the C5 scenario: HS code `"1234"` is
classified as `"DOZ"`, anything else as `"NUM"`. -/
def c5_oracle : String → Nat → Option String :=
  fun c _ => some (if c = "1234" then "DOZ" else "NUM")

/-! Helper lemmas. -/

theorem getD_replicate_none (n i : Nat) :
    (List.replicate n Val.none).getD i Val.none = Val.none := by
  induction n generalizing i with
  | zero => simp [List.getD]
  | succ k ih =>
    cases i with
    | zero => simp [List.replicate]
    | succ j => rw [List.replicate, List.getD_cons_succ]; exact ih j

theorem mem_uniqueFirst (x : String) (l : List String) :
    x ∈ uniqueFirst l ↔ x ∈ l := by
  induction l with
  | nil => simp [uniqueFirst]
  | cons a t ih =>
    by_cases hxa : x = a
    · subst hxa; simp [uniqueFirst]
    · simp [uniqueFirst, List.mem_filter, hxa, ih, bne_iff_ne]

theorem nodup_uniqueFirst (l : List String) : (uniqueFirst l).Nodup := by
  induction l with
  | nil => simp [uniqueFirst]
  | cons a t ih =>
    rw [uniqueFirst, List.nodup_cons]
    refine ⟨?_, List.Nodup.filter _ ih⟩
    intro hmem
    rcases List.mem_filter.mp hmem with ⟨h1, h2⟩
    exact absurd rfl (bne_iff_ne.mp h2)

theorem uniqueFirst_replicate (s : String) (n : Nat) :
    uniqueFirst (List.replicate (n + 1) s) = [s] := by
  induction n with
  | zero => rfl
  | succ k ih =>
    show uniqueFirst (s :: List.replicate (k + 1) s) = [s]
    rw [uniqueFirst, ih]
    simp

theorem resolve_codes_calls_cold (oracle : String → Nat → Option String) :
    ∀ (codes : List String) (cache : Cache),
      codes.Nodup →
      (∀ c ∈ codes, alookup c cache = Option.none) →
      (∀ c ∈ codes, ∃ u, get_unit_of_measure (oracle c) = Except.ok u) →
      (resolve_codes oracle codes cache).2.2 = codes := by
  intro codes
  induction codes with
  | nil => intro cache _ _ _; rfl
  | cons c cs ih =>
    intro cache hnd hcold hok
    have hc : alookup c cache = Option.none := hcold c (List.mem_cons_self c cs)
    obtain ⟨u, hu⟩ := hok c (List.mem_cons_self c cs)
    have hcall : get_unit_of_measure_cached oracle cache c = (Except.ok u, (c, u) :: cache) := by
      simp [get_unit_of_measure_cached, hc, hu]
    have hrec : (resolve_codes oracle cs ((c, u) :: cache)).2.2 = cs := by
      refine ih ((c, u) :: cache) (List.nodup_cons.mp hnd).2 ?_ ?_
      · intro x hx
        have hne : ¬(c = x) := fun h => (List.nodup_cons.mp hnd).1 (h ▸ hx)
        simp [alookup, hne, hcold x (List.mem_cons_of_mem _ hx)]
      · intro x hx
        exact hok x (List.mem_cons_of_mem _ hx)
    simp [resolve_codes, hcall, hc, hrec]

theorem findIdx'_eq_none (name : String) (l : List String) (h : name ∉ l) :
    findIdx' name l = Option.none := by
  induction l with
  | nil => rfl
  | cons a t ih =>
    have hne : ¬(a = name) := fun he => h (by rw [← he]; exact List.mem_cons_self a t)
    simp [findIdx', hne, ih (fun hm => h (List.mem_cons_of_mem _ hm))]

theorem locate_header_cons (row : List Val) (rest : List (List Val)) :
    locate_header (row :: rest)
      = if Val.str "EAN Code" ∈ row then some 0
        else (locate_header rest).map (fun i => i + 1) := rfl

theorem locate_none_iff (raw : List (List Val)) :
    locate_header raw = Option.none ↔ ∀ row ∈ raw, Val.str "EAN Code" ∉ row := by
  induction raw with
  | nil => simp [locate_header]
  | cons row rest ih =>
    constructor
    · intro h r hrmem
      rcases List.mem_cons.mp hrmem with rfl | htail
      · intro hmem
        rw [locate_header_cons, if_pos hmem] at h
        exact Option.noConfusion h
      · by_cases hmem : Val.str "EAN Code" ∈ row
        · rw [locate_header_cons, if_pos hmem] at h
          exact Option.noConfusion h
        · rw [locate_header_cons, if_neg hmem] at h
          have hrest : locate_header rest = Option.none := by
            cases hcase : locate_header rest with
            | none => rfl
            | some k => rw [hcase] at h; exact Option.noConfusion h
          exact (ih.mp hrest) r htail
    · intro hall
      have hmem : Val.str "EAN Code" ∉ row := hall row (List.mem_cons_self _ _)
      rw [locate_header_cons, if_neg hmem,
        ih.mpr (fun r hr => hall r (List.mem_cons_of_mem _ hr))]
      rfl

theorem locate_some_spec (raw : List (List Val)) :
    ∀ i : Nat, locate_header raw = some i →
      ∃ hi : i < raw.length, Val.str "EAN Code" ∈ raw.get ⟨i, hi⟩ ∧
        ∀ j (hj : j < raw.length), j < i → Val.str "EAN Code" ∉ raw.get ⟨j, hj⟩ := by
  induction raw with
  | nil => intro i h; exact Option.noConfusion h
  | cons row rest ih =>
    intro i h
    rw [locate_header_cons] at h
    by_cases hmem : Val.str "EAN Code" ∈ row
    · rw [if_pos hmem] at h
      obtain rfl : (0 : Nat) = i := Option.some.inj h
      refine ⟨Nat.succ_pos _, hmem, ?_⟩
      intro j hj hlt
      exact absurd hlt (Nat.not_lt_zero j)
    · rw [if_neg hmem] at h
      cases hcase : locate_header rest with
      | none => rw [hcase] at h; exact Option.noConfusion h
      | some k =>
        rw [hcase] at h
        simp only [Option.map_some'] at h
        obtain rfl : k + 1 = i := Option.some.inj h
        obtain ⟨hk, hmemk, hfirst⟩ := ih k hcase
        refine ⟨Nat.succ_lt_succ hk, ?_, ?_⟩
        · simpa using hmemk
        · intro j hj hlt
          cases j with
          | zero => simpa using hmem
          | succ m =>
            have hm : m < rest.length := Nat.lt_of_succ_lt_succ hj
            have hnot : Val.str "EAN Code" ∉ rest.get ⟨m, hm⟩ :=
              hfirst m hm (Nat.lt_of_succ_lt_succ hlt)
            simpa using hnot

theorem c6_junk_rows_locate (n : Nat) :
    locate_header (List.replicate n [Val.str "filler"] ++ [[Val.str "EAN Code"]])
      = some n := by
  induction n with
  | zero => rfl
  | succ k ih =>
    show locate_header ([Val.str "filler"] ::
      (List.replicate k [Val.str "filler"] ++ [[Val.str "EAN Code"]])) = some (k + 1)
    rw [locate_header_cons, if_neg (by decide), ih]
    rfl

theorem all_replicate_true {α : Type} (p : α → Bool) (a : α) (hp : p a = true) :
    ∀ n : Nat, (List.replicate n a).all p = true := by
  intro n
  induction n with
  | zero => rfl
  | succ k ih => simp [List.replicate, ih, hp]

/-! Claim theorems. -/

/-- C3: the quantity deriver satisfies the four example equations; in
general an absent (`None`/`NaN`) or non-numeric invoice quantity yields `0`
without raising, and otherwise the result is the quantity divided by the
unit factor, where `DOZ` has factor `12` and `NUM`, `KG`, `LBS` and every
unknown unit have factor `1`. -/
theorem c3_quantity_deriver (v : Val) (u : String) :
    calculate_customs_quantity (Val.num 24) "DOZ" = 2 ∧
    calculate_customs_quantity Val.none "NUM" = 0 ∧
    calculate_customs_quantity (Val.str "abc") "NUM" = 0 ∧
    calculate_customs_quantity (Val.num 5) "XYZ" = 5 ∧
    (pdIsNA v = true → calculate_customs_quantity v u = 0) ∧
    (pyFloatOf v = Option.none → calculate_customs_quantity v u = 0) ∧
    (∀ q : ℚ, pyFloatOf v = some q → pdIsNA v = false →
      calculate_customs_quantity v u = q / factor_for u) ∧
    factor_for "DOZ" = 12 ∧ factor_for "NUM" = 1 ∧ factor_for "KG" = 1 ∧
    factor_for "LBS" = 1 ∧
    (u ∉ ["DOZ", "NUM", "KG", "LBS"] → factor_for u = 1) := by
  refine ⟨?_, rfl, rfl, ?_, ?_, ?_, ?_, rfl, rfl, rfl, rfl, ?_⟩
  · rw [show calculate_customs_quantity (Val.num 24) "DOZ" = 24 / factor_for "DOZ" from rfl,
      show factor_for "DOZ" = (12 : ℚ) from rfl]
    norm_num
  · rw [show calculate_customs_quantity (Val.num 5) "XYZ" = 5 / factor_for "XYZ" from rfl,
      show factor_for "XYZ" = (1 : ℚ) from rfl]
    norm_num
  · intro h
    simp [calculate_customs_quantity, h]
  · intro h
    cases hna : pdIsNA v <;> simp [calculate_customs_quantity, h, hna]
  · intro q hq hna
    simp [calculate_customs_quantity, hna, hq]
  · intro hu
    simp only [List.mem_cons, List.not_mem_nil, or_false, not_or] at hu
    obtain ⟨h1, h2, h3, h4⟩ := hu
    have k1 : ¬("DOZ" = u) := fun h => h1 h.symm
    have k2 : ¬("NUM" = u) := fun h => h2 h.symm
    have k3 : ¬("KG" = u) := fun h => h3 h.symm
    have k4 : ¬("LBS" = u) := fun h => h4 h.symm
    simp [factor_for, unit_factors, alookup, k1, k2, k3, k4]

/-- C3 witness: a concrete non-numeric quantity with an unknown unit. -/
theorem c3_witness :
    calculate_customs_quantity (Val.str "abc") "XYZ" = 0 ∧ factor_for "XYZ" = 1 :=
  ⟨(c3_quantity_deriver (Val.str "abc") "XYZ").2.2.2.2.2.1 rfl,
   (c3_quantity_deriver (Val.str "abc") "XYZ").2.2.2.2.2.2.2.2.2.2.2 (by decide)⟩

/-- C2 counterexample: when every attempt of the external unit lookup
raises, the resolver does not return the default unit but raises itself,
and the pipeline run aborts with the lookup failure; moreover a response
outside the valid unit set, such as `"XYZ"`, is returned unchanged rather
than replaced by the default. -/
theorem c2_counterexample :
    get_unit_of_measure (fun _ => Option.none) = Except.error () ∧
    get_unit_of_measure (fun _ => some "XYZ") = Except.ok "XYZ" ∧
    ("XYZ" == "NUM") = false ∧
    (processTable (fun _ _ => Option.none) [] ["HS code"] [[Val.str "1234"]]).1
      = Except.error PipeError.unitLookupFailed :=
  ⟨rfl, rfl, rfl, rfl⟩

/-- C2 amended: the retry policy makes up to 3 attempts with exponential
backoff starting at 2 time units and capped at 10, but on exhausting
retries the error propagates and aborts the pipeline run (no fallback to
the default unit); a returned response is replaced by `"NUM"` only when,
after strip and uppercase, it is longer than 5 characters or not purely
alphabetic — alphabetic responses outside the valid unit set are returned
as-is. -/
theorem c2_amended (att : Nat → Option String) (r : String) :
    (att 0 = Option.none → att 1 = Option.none → att 2 = Option.none →
      get_unit_of_measure att = Except.error ()) ∧
    (att 0 = some r → get_unit_of_measure att = Except.ok (validate_unit r)) ∧
    validate_unit "DOZENS" = "NUM" ∧
    validate_unit "12" = "NUM" ∧
    validate_unit " xyz " = "XYZ" ∧
    wait_exponential_2_10 1 = 2 ∧
    wait_exponential_2_10 2 = 4 ∧
    (∀ n : Nat, 2 ≤ wait_exponential_2_10 n ∧ wait_exponential_2_10 n ≤ 10) ∧
    (processTable (fun _ _ => Option.none) [] ["HS code", "Quantity"]
        [[Val.str "6401", Val.num 24]]).1 = Except.error PipeError.unitLookupFailed := by
  refine ⟨?_, ?_, rfl, rfl, rfl, rfl, rfl, ?_, rfl⟩
  · intro h0 h1 h2
    simp [get_unit_of_measure, h0, h1, h2]
  · intro h0
    simp [get_unit_of_measure, h0]
  · intro n
    exact ⟨le_min (by norm_num) (le_max_left _ _), min_le_left _ _⟩

/-- C2 witness: three raised attempts produce the retry error, and every
backoff wait is at least 2 time units. -/
theorem c2_amended_witness :
    get_unit_of_measure (fun _ => Option.none) = Except.error () ∧
    2 ≤ wait_exponential_2_10 5 :=
  ⟨(c2_amended (fun _ => Option.none) "doz").1 rfl rfl rfl,
   ((c2_amended (fun _ => Option.none) "doz").2.2.2.2.2.2.2.1 5).1⟩

/-- C8 counterexample: a defaulted lookup is cached — a malformed response
(`"DOZENS"`, longer than 5 characters) is replaced by the default `"NUM"`,
which the cache then stores for the code. -/
theorem c8_counterexample :
    get_unit_of_measure (fun _ => some "DOZENS") = Except.ok "NUM" ∧
    get_unit_of_measure_cached (fun _ _ => some "DOZENS") [] "64011000"
      = (Except.ok "NUM", [("64011000", "NUM")]) :=
  ⟨rfl, rfl⟩

/-- C8 amended: the cache stores every value the lookup returns, including
format-defaulted `"NUM"`; only a lookup that raises (all retries failed)
leaves the cache unchanged; and once a code's first resolution has
returned, resolving it again is a cache hit that performs no external
call. -/
theorem c8_amended (oracle : String → Nat → Option String) (cache : Cache)
    (code u : String) :
    (get_unit_of_measure (oracle code) = Except.error () →
      (get_unit_of_measure_cached oracle cache code).2 = cache) ∧
    (alookup code cache = Option.none →
      get_unit_of_measure (oracle code) = Except.ok u →
      get_unit_of_measure_cached oracle cache code = (Except.ok u, (code, u) :: cache) ∧
      get_unit_of_measure_cached oracle ((code, u) :: cache) code
        = (Except.ok u, (code, u) :: cache) ∧
      (resolve_codes oracle [code] cache).2.2 = [code] ∧
      (resolve_codes oracle [code] ((code, u) :: cache)).2.2 = []) := by
  constructor
  · intro herr
    cases hl : alookup code cache with
    | some v => simp [get_unit_of_measure_cached, hl]
    | none => simp [get_unit_of_measure_cached, hl, herr]
  · intro hmiss hok
    have h1 : get_unit_of_measure_cached oracle cache code
        = (Except.ok u, (code, u) :: cache) := by
      simp [get_unit_of_measure_cached, hmiss, hok]
    have h2 : get_unit_of_measure_cached oracle ((code, u) :: cache) code
        = (Except.ok u, (code, u) :: cache) := by
      simp [get_unit_of_measure_cached, alookup]
    refine ⟨h1, h2, ?_, ?_⟩
    · simp [resolve_codes, h1, hmiss]
    · simp [resolve_codes, h2, alookup]

/-- C8 witness: a successful first resolution is cached and the second
resolution of the same code performs no external call. -/
theorem c8_amended_witness :
    get_unit_of_measure_cached (fun _ _ => some "KG") [] "6401"
      = (Except.ok "KG", [("6401", "KG")]) ∧
    (resolve_codes (fun _ _ => some "KG") ["6401"] [("6401", "KG")]).2.2 = [] :=
  ⟨((c8_amended (fun _ _ => some "KG") [] "6401" "KG").2 rfl rfl).1,
   ((c8_amended (fun _ _ => some "KG") [] "6401" "KG").2 rfl rfl).2.2.2⟩

/-- C9 counterexample: an absent classification code is stringified to
`"None"` and sent to the external lookup (it does not map directly to the
default unit without a call), and codes are not trimmed or uppercased
before lookup; an empty-string code is likewise looked up externally. -/
theorem c9_counterexample :
    hs_codes_of [Val.none] = ["None"] ∧
    (resolve_codes (fun _ _ => some "KG") (hs_codes_of [Val.none]) []).2.2 = ["None"] ∧
    hs_codes_of [Val.str " doz "] = [" doz "] ∧
    hs_codes_of [Val.str ""] = [""] ∧
    (resolve_codes (fun _ _ => some "KG") (hs_codes_of [Val.str ""]) []).2.2 = [""] :=
  ⟨rfl, rfl, rfl, rfl, rfl⟩

/-- C9 amended: the only normalization applied to classification codes
before lookup is string coercion (`astype(str)`): strings pass through
untrimmed and in their original case, an absent code becomes the string
`"None"`, and every such code — including `"None"` and the empty string —
is handed to the external lookup like any other code. -/
theorem c9_amended (col : List Val) (s : String)
    (oracle : String → Nat → Option String) :
    hs_codes_of col = uniqueFirst (List.map pyStr col) ∧
    pyStr Val.none = "None" ∧
    pyStr (Val.str s) = s ∧
    (Val.none ∈ col → "None" ∈ hs_codes_of col) ∧
    (Val.none ∈ col →
      (∀ c ∈ hs_codes_of col, ∃ u, get_unit_of_measure (oracle c) = Except.ok u) →
      "None" ∈ (resolve_codes oracle (hs_codes_of col) []).2.2) := by
  refine ⟨rfl, rfl, rfl, ?_, ?_⟩
  · intro hc
    exact (mem_uniqueFirst _ _).mpr (List.mem_map.mpr ⟨Val.none, hc, rfl⟩)
  · intro hc hok
    have hcalls := resolve_codes_calls_cold oracle (hs_codes_of col) []
      (nodup_uniqueFirst _) (fun _ _ => rfl) hok
    rw [hcalls]
    exact (mem_uniqueFirst _ _).mpr (List.mem_map.mpr ⟨Val.none, hc, rfl⟩)

/-- C9 witness: a concrete column with an absent code whose stringified
form `"None"` is sent to the external lookup. -/
theorem c9_amended_witness :
    "None" ∈ (resolve_codes (fun _ _ => some "KG")
      (hs_codes_of [Val.none, Val.str "6401"]) []).2.2 :=
  (c9_amended [Val.none, Val.str "6401"] "x" (fun _ _ => some "KG")).2.2.2.2
    (by decide) (fun c _ => ⟨validate_unit "KG", rfl⟩)

theorem find_synonym_entry (p : String × List String) (h : String)
    (hp : p ∈ STANDARD_COLUMNS) (hs : h ∈ p.2) :
    STANDARD_COLUMNS.find? (fun q => q.2.contains h) = some p := by
  simp only [STANDARD_COLUMNS, List.mem_cons, List.not_mem_nil, or_false] at hp
  rcases hp with rfl | rfl | rfl | rfl | rfl | rfl <;> (revert h; decide)

/-- C4 counterexample: with every required canonical field covered by an
exact synonym header, a failing classifier call (the API raising, i.e. the
classifier disabled) makes `get_column_mappings` re-raise instead of
falling back; and the fallback has no case-insensitive pass — the header
`"STYLE"` matches no synonym even though `"Style"` is one. -/
theorem c4_counterexample :
    get_column_mappings ClassifierResp.failure
      ["Style", "Description", "HS Code", "Export Invoice #", "Quantity", "Total Amount"]
      STANDARD_COLUMNS = Except.error () ∧
    fallback_mappings ["STYLE"] STANDARD_COLUMNS = [] :=
  ⟨rfl, rfl⟩

/-- C4 amended: when the classifier returns unparseable output
(`JSONDecodeError` path), the deterministic fallback alone maps every
required canonical field from any header set in which each field has a
source column exactly (case-sensitively) equal to one of its synonyms,
first standard column winning per header; there is no case-insensitive
pass, and when the classifier call itself raises the error propagates with
no fallback. -/
theorem c4_amended (headers : List String)
    (hcov : ∀ p ∈ STANDARD_COLUMNS, ∃ h ∈ headers, h ∈ p.2) :
    get_column_mappings ClassifierResp.unparseable headers STANDARD_COLUMNS
      = Except.ok (fallback_mappings headers STANDARD_COLUMNS) ∧
    (∀ p ∈ STANDARD_COLUMNS, ∃ h, h ∈ headers ∧ h ∈ p.2 ∧
      (h, p.1) ∈ fallback_mappings headers STANDARD_COLUMNS) ∧
    get_column_mappings ClassifierResp.failure headers STANDARD_COLUMNS
      = Except.error () := by
  refine ⟨rfl, ?_, rfl⟩
  intro p hp
  obtain ⟨h, hh, hsyn⟩ := hcov p hp
  refine ⟨h, hh, hsyn, ?_⟩
  have hf := find_synonym_entry p h hp hsyn
  rw [fallback_mappings, List.mem_filterMap]
  exact ⟨h, hh, by rw [hf]; rfl⟩

/-- C4 witness: one exact synonym header per required field; the fallback
path returns the synonym mapping. -/
theorem c4_witness :
    get_column_mappings ClassifierResp.unparseable
      ["Invoice #", "Style", "Description", "Qty", "Amount", "HTS"] STANDARD_COLUMNS
      = Except.ok (fallback_mappings
          ["Invoice #", "Style", "Description", "Qty", "Amount", "HTS"] STANDARD_COLUMNS) :=
  (c4_amended ["Invoice #", "Style", "Description", "Qty", "Amount", "HTS"]
    (by decide)).1

/-- C6 counterexample: the header scan is not bounded — with the sentinel
first appearing only at row index 10000 (so not within any bounded prefix
meant to cap the scan), the locator still succeeds and returns index 10000
instead of failing. -/
theorem c6_counterexample :
    locate_header (List.replicate 10000 [Val.str "filler"] ++ [[Val.str "EAN Code"]])
      = some 10000 ∧
    (List.replicate 10000 [Val.str "filler"]).all
      (fun row => !(row.contains (Val.str "EAN Code"))) = true := by
  constructor
  · exact c6_junk_rows_locate 10000
  · exact all_replicate_true _ _ (by decide) 10000

/-- C6 amended: the locator returns the zero-based index of the first raw
row containing the sentinel `'EAN Code'` in any cell, wherever in the table
it occurs — the scan is unbounded — and it fails (raises) exactly when no
row of the entire table contains the sentinel. -/
theorem c6_amended (raw : List (List Val)) :
    (locate_header raw = Option.none ↔ ∀ row ∈ raw, Val.str "EAN Code" ∉ row) ∧
    (∀ i : Nat, locate_header raw = some i →
      ∃ hi : i < raw.length, Val.str "EAN Code" ∈ raw.get ⟨i, hi⟩ ∧
        ∀ j (hj : j < raw.length), j < i → Val.str "EAN Code" ∉ raw.get ⟨j, hj⟩) ∧
    (∀ n : Nat,
      locate_header (List.replicate n [Val.str "filler"] ++ [[Val.str "EAN Code"]])
        = some n) :=
  ⟨locate_none_iff raw, locate_some_spec raw, c6_junk_rows_locate⟩

/-- C6 witness: the sentinel-only table locates its header at index 0. -/
theorem c6_witness :
    locate_header (List.replicate 0 [Val.str "filler"] ++ [[Val.str "EAN Code"]])
      = some 0 :=
  (c6_amended [[Val.str "EAN Code"]]).2.2 0

/-- C7: the pipeline resolves units over the deduplicated stringified HS
codes: the code list handed to the resolver has no duplicates, contains
exactly the codes present in the column, a table of N rows sharing one code
yields a single-element code list for every N ≥ 1, and over a cold cache
the resolver performs exactly one external lookup call per distinct code. -/
theorem c7_one_lookup_per_distinct_code (col : List Val)
    (oracle : String → Nat → Option String)
    (hok : ∀ c ∈ hs_codes_of col, ∃ u, get_unit_of_measure (oracle c) = Except.ok u) :
    (hs_codes_of col).Nodup ∧
    (∀ c, c ∈ hs_codes_of col ↔ c ∈ col.map pyStr) ∧
    (resolve_codes oracle (hs_codes_of col) []).2.2 = hs_codes_of col ∧
    (∀ (v : Val) (n : Nat), hs_codes_of (List.replicate (n + 1) v) = [pyStr v]) := by
  refine ⟨nodup_uniqueFirst _, fun c => mem_uniqueFirst c _, ?_, ?_⟩
  · exact resolve_codes_calls_cold oracle (hs_codes_of col) []
      (nodup_uniqueFirst _) (fun _ _ => rfl) hok
  · intro v n
    rw [hs_codes_of, List.map_replicate]
    exact uniqueFirst_replicate (pyStr v) n

/-- C7 witness: two rows sharing the code `"1234"` cause exactly one
external lookup. -/
theorem c7_witness :
    (resolve_codes (fun _ _ => some "NUM")
      (hs_codes_of [Val.str "1234", Val.str "1234"]) []).2.2
      = hs_codes_of [Val.str "1234", Val.str "1234"] :=
  (c7_one_lookup_per_distinct_code [Val.str "1234", Val.str "1234"]
    (fun _ _ => some "NUM") (fun _ _ => ⟨validate_unit "NUM", rfl⟩)).2.2.1

theorem processTable_ok (oracle : String → Nat → Option String) (cache : Cache)
    (headers0 : List String) (rows : List (List Val))
    (out : List (List (String × Val))) (cache1 : Cache)
    (h : processTable oracle cache headers0 rows = (Except.ok out, cache1)) :
    ∃ pairs, out = (List.range (std_nrows (List.map pyStrip headers0) rows)).map
      (out_row (standardized_columns (List.map pyStrip headers0) rows) pairs) := by
  by_cases hn : std_nrows (List.map pyStrip headers0) rows = 0
  · simp only [processTable] at h
    rw [if_pos hn] at h
    have := congrArg Prod.fst h
    simp at this
  · simp only [processTable] at h
    rw [if_neg hn, if_pos (show missing_required = ([] : List String) from rfl)] at h
    rcases hres : resolve_codes oracle
      (hs_codes_of ((alookup "HS Code"
        (standardized_columns (List.map pyStrip headers0) rows)).getD [])) cache
      with ⟨r, c2, calls⟩
    rw [hres] at h
    cases r with
    | error e =>
      have := congrArg Prod.fst h
      simp at this
    | ok pairs =>
      refine ⟨pairs, ?_⟩
      have := congrArg Prod.fst h
      simp at this
      exact this.symm

/-- C1: on source headers lacking required fields the pipeline does not
raise the missing-required-columns error — the mapping loop creates every
target column (null-filled when the source is absent), so the
`required_columns` check can never fire; with headers `["Qty", "Amount"]`
(none of the six sources present) the run instead fails with the
no-data-extracted error, and with only some sources absent it does not fail
at all. -/
theorem c1_missing_columns_check_unreachable :
    (processTable (fun _ _ => Option.none) [] ["Qty", "Amount"]
      [[Val.num 1, Val.num 2]]).1 = Except.error PipeError.noDataExtracted ∧
    missing_required = [] ∧
    ∀ (oracle : String → Nat → Option String) (cache : Cache)
      (headers0 : List String) (rows : List (List Val)),
      is_missing_columns_error (processTable oracle cache headers0 rows).1 = false := by
  refine ⟨rfl, rfl, ?_⟩
  intro oracle cache headers0 rows
  by_cases hn : std_nrows (List.map pyStrip headers0) rows = 0
  · simp only [processTable]
    rw [if_pos hn]
    rfl
  · simp only [processTable]
    rw [if_neg hn, if_pos (show missing_required = ([] : List String) from rfl)]
    rcases hres : resolve_codes oracle
      (hs_codes_of ((alookup "HS Code"
        (standardized_columns (List.map pyStrip headers0) rows)).getD [])) cache
      with ⟨r, c2, calls⟩
    cases r <;> rfl

/-- C5 counterexample: with the scenario's header spelled `"HS Code"`, the
hard-coded source column `'HS code'` is absent, so the standardized HS Code
column is null, the unit lookup receives the string `"None"` instead of
`"1234"`, and the single output row carries unit `"NUM"`, customs quantity
`24` and a null HS Code — not the claimed `"DOZ"`/`2`. -/
theorem c5_counterexample :
    (processTable c5_oracle []
      ["Style", "Description", "Quantity", "Total Amount", "HS Code"]
      [[Val.str "A1", Val.str "Widget", Val.num 24, Val.num 100, Val.str "1234"]]).1
      = Except.ok [[("Export Invoice #", Val.none),
          ("Product Code", Val.str "A1"),
          ("Description", Val.str "Widget"),
          ("Invoice Quantity", Val.num 24),
          ("Total Amount", Val.num 100),
          ("Customs Unit of Measure", Val.str "NUM"),
          ("Customs Quantity", Val.num (calculate_customs_quantity (Val.num 24) "NUM")),
          ("HS Code", Val.none)]] ∧
    calculate_customs_quantity (Val.num 24) "NUM" = 24 ∧
    (Val.str "NUM" == Val.str "DOZ") = false := by
  refine ⟨rfl, ?_, rfl⟩
  rw [show calculate_customs_quantity (Val.num 24) "NUM" = 24 / factor_for "NUM" from rfl,
    show factor_for "NUM" = (1 : ℚ) from rfl]
  norm_num

/-- C5 amended: the same single-row scenario with the source header spelled
`"HS code"` (the code's hard-coded source column name) produces exactly one
output row with Product Code `"A1"`, Invoice Quantity `24`, Customs Unit of
Measure `"DOZ"` and Customs Quantity `2` (and a null Export Invoice #,
whose source is absent). -/
theorem c5_amended :
    (processTable c5_oracle []
      ["Style", "Description", "Quantity", "Total Amount", "HS code"]
      [[Val.str "A1", Val.str "Widget", Val.num 24, Val.num 100, Val.str "1234"]]).1
      = Except.ok [[("Export Invoice #", Val.none),
          ("Product Code", Val.str "A1"),
          ("Description", Val.str "Widget"),
          ("Invoice Quantity", Val.num 24),
          ("Total Amount", Val.num 100),
          ("Customs Unit of Measure", Val.str "DOZ"),
          ("Customs Quantity", Val.num 2),
          ("HS Code", Val.str "1234")]] := by
  have h : calculate_customs_quantity (Val.num 24) "DOZ" = 2 := by
    rw [show calculate_customs_quantity (Val.num 24) "DOZ" = 24 / factor_for "DOZ" from rfl,
      show factor_for "DOZ" = (12 : ℚ) from rfl]
    norm_num
  rw [← h]
  rfl

/-- C10: whenever the pipeline returns a table, every output row carries
exactly the eight canonical columns in the fixed output order, and for
every one of the six hard-coded source columns that is absent from the
(stripped) headers, the corresponding canonical column holds the null
value in every row. -/
theorem c10_all_columns_with_nulls (oracle : String → Nat → Option String)
    (cache : Cache) (headers0 : List String) (rows : List (List Val))
    (out : List (List (String × Val))) (cache1 : Cache)
    (h : processTable oracle cache headers0 rows = (Except.ok out, cache1)) :
    (∀ row ∈ out, row.map Prod.fst = output_columns) ∧
    (∀ src tgt, (src, tgt) ∈ column_mappings →
      src ∉ List.map pyStrip headers0 →
      ∀ row ∈ out, alookup tgt row = some Val.none) := by
  obtain ⟨pairs, rfl⟩ := processTable_ok oracle cache headers0 rows out cache1 h
  constructor
  · intro row hrow
    obtain ⟨i, hi, rfl⟩ := List.mem_map.mp hrow
    rfl
  · intro src tgt hmem hsrc row hrow
    obtain ⟨i, hi, rfl⟩ := List.mem_map.mp hrow
    have hidx : findIdx' src (List.map pyStrip headers0) = Option.none :=
      findIdx'_eq_none src _ hsrc
    simp only [column_mappings, List.mem_cons, List.not_mem_nil, or_false,
      Prod.mk.injEq] at hmem
    rcases hmem with ⟨rfl, rfl⟩ | ⟨rfl, rfl⟩ | ⟨rfl, rfl⟩ | ⟨rfl, rfl⟩ |
      ⟨rfl, rfl⟩ | ⟨rfl, rfl⟩ <;>
      simp [out_row, standardized_columns, column_mappings, std_column, getColumn,
        hidx, getD_replicate_none, alookup]

/-- C10 witness: a run whose headers lack `'Style'` and `'Export Invoice #'`
still yields a Product Code column, null in its row. -/
theorem c10_witness :
    alookup "Product Code"
      [("Export Invoice #", Val.none),
       ("Product Code", Val.none),
       ("Description", Val.str "Widget"),
       ("Invoice Quantity", Val.num 24),
       ("Total Amount", Val.num 100),
       ("Customs Unit of Measure", Val.str "NUM"),
       ("Customs Quantity", Val.num (calculate_customs_quantity (Val.num 24) "NUM")),
       ("HS Code", Val.str "1234")] = some Val.none :=
  (c10_all_columns_with_nulls (fun _ _ => some "NUM") []
    ["Description", "HS code", "Quantity", "Total Amount"]
    [[Val.str "Widget", Val.str "1234", Val.num 24, Val.num 100]]
    [[("Export Invoice #", Val.none),
      ("Product Code", Val.none),
      ("Description", Val.str "Widget"),
      ("Invoice Quantity", Val.num 24),
      ("Total Amount", Val.num 100),
      ("Customs Unit of Measure", Val.str "NUM"),
      ("Customs Quantity", Val.num (calculate_customs_quantity (Val.num 24) "NUM")),
      ("HS Code", Val.str "1234")]]
    [("1234", "NUM")] rfl).2 "Style" "Product Code" (by decide) (by decide)
    [("Export Invoice #", Val.none),
     ("Product Code", Val.none),
     ("Description", Val.str "Widget"),
     ("Invoice Quantity", Val.num 24),
     ("Total Amount", Val.num 100),
     ("Customs Unit of Measure", Val.str "NUM"),
     ("Customs Quantity", Val.num (calculate_customs_quantity (Val.num 24) "NUM")),
     ("HS Code", Val.str "1234")]
    (List.mem_cons_self _ _)
